import Mathlib

/-!
Verification of the nodeselector-notify reconciliation loop (src/src/main.rs).

The program watches a cluster-wide collection of Deployments and reports,
through a Slack-style webhook, every deployment whose pod template lacks a
non-empty node selector.  The watch stream delivers five event kinds
(`Apply`, `Delete`, `Init`, `InitApply`, `InitDone`); during the initial
listing phase violations are accumulated into a batch that is flushed as a
single digest on `InitDone`, while steady-state violations are reported
individually.

The embedding below translates the Rust source shallowly: the nested
optional fields of a Deployment become nested `Option`s, the event loop
becomes a `step` function over the batch state that also returns the list
of notification texts posted in that step, and `run` folds `step` over an
event list.  Delivery outcomes are modelled by a sink oracle in
`run_sink`; the source only logs a delivery error, so the oracle's answers
are threaded through but never influence control flow.
-/

namespace NodeSelectorNotify

/-- Pod specification: only the `node_selector` field
(`Option<BTreeMap<String, String>>` in `k8s_openapi`) is relevant;
the map is modelled as an association list. -/
structure PodSpec where
  node_selector : Option (List (String × String))
deriving DecidableEq, Repr

/-- Pod template specification with its optional `spec` field. -/
structure PodTemplateSpec where
  spec : Option PodSpec
deriving DecidableEq, Repr

/-- Deployment specification: only the pod `template` is relevant. -/
structure DeploymentSpec where
  template : PodTemplateSpec
deriving DecidableEq, Repr

/-- Object metadata: the optional `name` and `namespace` fields
(`namespace` is a Lean keyword, hence the trailing tick). -/
structure ObjectMeta where
  name : Option String
  namespace' : Option String
deriving DecidableEq, Repr

/-- A Deployment as the program reads it: metadata plus optional spec. -/
structure Deployment where
  metadata : ObjectMeta
  spec : Option DeploymentSpec
deriving DecidableEq, Repr

/-- `has_node_selector` from main.rs lines 74-82:
`deployment.spec.as_ref().and_then(|spec| spec.template.spec.as_ref())
 .and_then(|pod_spec| pod_spec.node_selector.as_ref())
 .map(|ns| !ns.is_empty()).unwrap_or(false)`. -/
def has_node_selector (deployment : Deployment) : Bool :=
  (((deployment.spec.bind fun spec => spec.template.spec).bind
      fun pod_spec => pod_spec.node_selector).map
      fun ns => !ns.isEmpty).getD false

/-- `parse_ignored_namespaces` from main.rs lines 84-91, as a function of
the raw `IGNORED_NAMESPACES` environment value (empty when unset):
split on commas, trim each entry, drop empty entries.  The Rust `HashSet`
is modelled as a list consulted only through membership. -/
def parse_ignored_namespaces (raw : String) : List String :=
  ((raw.splitOn ",").map String.trim).filter fun s => !s.isEmpty

/-- `should_ignore_namespace` from main.rs lines 93-95: exact membership. -/
def should_ignore_namespace (namespace' : String) (ignored : List String) : Bool :=
  ignored.contains namespace'

/-- Text of the single-violation Slack message built in
`send_slack_notification` (main.rs lines 26-29). -/
def single_message (env_name deployment_name : String) : String :=
  "⚠️ Deployment missing nodeSelector\nenv: " ++ env_name ++
    "\nname: " ++ deployment_name

/-- Text of the batch Slack message built in
`send_slack_batch_notification` (main.rs lines 51-63). -/
def batch_message (env_name : String) (deployments : List (String × String)) : String :=
  "⚠️ Found " ++ toString deployments.length ++
    " deployment(s) missing nodeSelector\nenv: " ++ env_name ++ "\n" ++
    String.intercalate "\n" (deployments.map fun p => "• " ++ p.1 ++ "/" ++ p.2)

/-- A notification attempt posted to the webhook: either the single-item
shape or the batch digest shape, carrying the message text. -/
inductive Sent where
  | single (text : String)
  | batch (text : String)
deriving DecidableEq, Repr

/-- The text carried by a notification attempt. -/
def sent_text : Sent → String
  | Sent.single t => t
  | Sent.batch t => t

/-- `send_slack_notification` (main.rs lines 19-39) as the list of webhook
posts it performs: always exactly one. -/
def send_slack_notification (_webhook_url env_name deployment_name : String) :
    List Sent :=
  [Sent.single (single_message env_name deployment_name)]

/-- `send_slack_batch_notification` (main.rs lines 41-72) as the list of
webhook posts it performs: none when the list is empty (early return at
lines 46-48), otherwise exactly one digest. -/
def send_slack_batch_notification (_webhook_url env_name : String)
    (deployments : List (String × String)) : List Sent :=
  if deployments.isEmpty then []
  else [Sent.batch (batch_message env_name deployments)]

/-- The five watcher event kinds consumed by the loop (main.rs lines
124-188): `Apply` and `Delete` are steady-state upsert/remove events,
`Init` starts (or restarts) the priming phase, `InitApply` delivers one
primed item, `InitDone` ends priming. -/
inductive Event where
  | Apply (deployment : Deployment)
  | Delete (deployment : Deployment)
  | Init
  | InitApply (deployment : Deployment)
  | InitDone
deriving DecidableEq, Repr

/-- Configuration read once at startup (main.rs lines 104-107). -/
structure Config where
  slack_webhook_url : String
  env_name : String
  ignored_namespaces : List String
deriving DecidableEq, Repr

/-- `deployment.metadata.name.as_deref().unwrap_or("unknown")`. -/
def deployment_name (d : Deployment) : String :=
  d.metadata.name.getD "unknown"

/-- `deployment.metadata.namespace.as_deref().unwrap_or("default")`. -/
def deployment_namespace (d : Deployment) : String :=
  d.metadata.namespace'.getD "default"

/-- One iteration of the `while let` loop body (main.rs lines 123-189):
given the current `init_violations` batch and one event, return the new
batch and the notification attempts posted during this iteration.
Logging statements have no observable effect and are omitted. -/
def step (cfg : Config) (init_violations : List (String × String)) :
    Event → List (String × String) × List Sent
  | Event.Apply deployment =>
      if should_ignore_namespace (deployment_namespace deployment)
          cfg.ignored_namespaces then
        (init_violations, [])
      else if !has_node_selector deployment then
        (init_violations,
         send_slack_notification cfg.slack_webhook_url cfg.env_name
           (deployment_name deployment))
      else
        (init_violations, [])
  | Event.Delete _ => (init_violations, [])
  | Event.Init => ([], [])
  | Event.InitApply deployment =>
      if should_ignore_namespace (deployment_namespace deployment)
          cfg.ignored_namespaces then
        (init_violations, [])
      else if !has_node_selector deployment then
        (init_violations ++
           [(deployment_namespace deployment, deployment_name deployment)], [])
      else
        (init_violations, [])
  | Event.InitDone =>
      ([], send_slack_batch_notification cfg.slack_webhook_url cfg.env_name
             init_violations)

/-- The loop over a finite event sequence: final batch state and the
concatenated notification attempts, in order. -/
def run (cfg : Config) (init_violations : List (String × String)) :
    List Event → List (String × String) × List Sent
  | [] => (init_violations, [])
  | e :: es =>
      ((run cfg (step cfg init_violations e).1 es).1,
       (step cfg init_violations e).2 ++
         (run cfg (step cfg init_violations e).1 es).2)

/-- The loop with an explicit delivery sink: each posted message is paired
with the sink's success verdict for its text.  The source inspects the
`Result` only to log it (`if let Err(e) = ... { error!(...) }`,
main.rs lines 139-143 and 179-184), so the verdicts are recorded but never
steer control flow or state. -/
def run_sink (cfg : Config) (sink : String → Bool)
    (init_violations : List (String × String)) :
    List Event → List (String × String) × List (Sent × Bool)
  | [] => (init_violations, [])
  | e :: es =>
      ((run_sink cfg sink (step cfg init_violations e).1 es).1,
       (step cfg init_violations e).2.map (fun s => (s, sink (sent_text s))) ++
         (run_sink cfg sink (step cfg init_violations e).1 es).2)

/-- Substring test on character lists, used to state what a notification
text does not mention. -/
def list_contains_sub (pat : List Char) : List Char → Bool
  | [] => pat.isEmpty
  | c :: cs => pat.isPrefixOf (c :: cs) || list_contains_sub pat cs

/-- Substring test on strings. -/
def contains_sub (s pat : String) : Bool :=
  list_contains_sub pat.data s.data

/-- The priming-phase event sequence for a list of items: `Init`, one
`InitApply` per item, then `InitDone`. -/
def priming_events (ds : List Deployment) : List Event :=
  Event.Init :: (ds.map Event.InitApply ++ [Event.InitDone])

/-- The workload references, in observation order, of the priming items
that are neither excluded nor compliant: the entries the loop accumulates
into `init_violations`. -/
def violating_refs (cfg : Config) (ds : List Deployment) : List (String × String) :=
  (ds.filter fun d =>
      !should_ignore_namespace (deployment_namespace d) cfg.ignored_namespaces &&
        !has_node_selector d).map
    fun d => (deployment_namespace d, deployment_name d)

/-- A concrete configuration: webhook set, environment label `prod`,
no ignored namespaces. -/
def cfg0 : Config :=
  { slack_webhook_url := "https://hooks.example/T000"
    env_name := "prod"
    ignored_namespaces := [] }

/-- A concrete configuration that ignores the `kube-system` namespace. -/
def cfg1 : Config :=
  { slack_webhook_url := "https://hooks.example/T000"
    env_name := "prod"
    ignored_namespaces := ["kube-system"] }

/-- A concrete non-compliant deployment `team-a/api` (no spec at all). -/
def depA : Deployment :=
  { metadata := { name := some "api", namespace' := some "team-a" }, spec := none }

/-- A concrete non-compliant deployment `team-b/web` (no spec at all). -/
def depB : Deployment :=
  { metadata := { name := some "web", namespace' := some "team-b" }, spec := none }

/-- A concrete non-compliant deployment `team-a/web`: same name as `depB`,
different namespace. -/
def depB2 : Deployment :=
  { metadata := { name := some "web", namespace' := some "team-a" }, spec := none }

/-- A concrete non-compliant deployment in the `kube-system` namespace. -/
def depC : Deployment :=
  { metadata := { name := some "dns", namespace' := some "kube-system" }, spec := none }

/-- A concrete deployment with neither name nor namespace, non-compliant. -/
def depNone : Deployment :=
  { metadata := { name := none, namespace' := none }, spec := none }

/-- Decomposition of a run over a concatenated event list: the second part
starts from the batch state the first part left behind, and the outputs
concatenate. -/
theorem run_append (cfg : Config) (b : List (String × String))
    (l1 l2 : List Event) :
    run cfg b (l1 ++ l2) =
      ((run cfg (run cfg b l1).1 l2).1,
       (run cfg b l1).2 ++ (run cfg (run cfg b l1).1 l2).2) := by
  induction l1 generalizing b with
  | nil => simp [run]
  | cons e es ih => simp [run, ih]

/-- Running a block of `InitApply` events produces no output and appends
exactly the non-excluded, non-compliant references, in order, to the
batch. -/
theorem run_initapply (cfg : Config) (b : List (String × String))
    (ds : List Deployment) :
    run cfg b (ds.map Event.InitApply) = (b ++ violating_refs cfg ds, []) := by
  induction ds generalizing b with
  | nil => simp [run, violating_refs]
  | cons d ds ih =>
      rcases hig : should_ignore_namespace (deployment_namespace d)
          cfg.ignored_namespaces with _ | _
      · rcases hsel : has_node_selector d with _ | _
        · simp [run, step, hig, hsel, ih, violating_refs, List.filter_cons]
        · simp [run, step, hig, hsel, ih, violating_refs, List.filter_cons]
      · simp [run, step, hig, ih, violating_refs, List.filter_cons]

/-- An `InitApply` event never produces output, whatever the branch. -/
theorem step_initapply_snd (cfg : Config) (b : List (String × String))
    (d : Deployment) : (step cfg b (Event.InitApply d)).2 = [] := by
  simp only [step]
  split
  · rfl
  · split <;> rfl

/-- Each loop iteration posts at most one notification: no retries. -/
theorem step_snd_length (cfg : Config) (b : List (String × String))
    (e : Event) : (step cfg b e).2.length ≤ 1 := by
  rcases e with d | d | _ | d | _
  · simp only [step, send_slack_notification]
    split
    · simp
    · split <;> simp
  · simp [step]
  · simp [step]
  · simp only [step]
    split
    · simp
    · split <;> simp
  · simp only [step, send_slack_batch_notification]
    split <;> simp

/-- The sink verdicts never influence the batch state. -/
theorem run_sink_fst (cfg : Config) (sink : String → Bool)
    (b : List (String × String)) (es : List Event) :
    (run_sink cfg sink b es).1 = (run cfg b es).1 := by
  induction es generalizing b with
  | nil => rfl
  | cons e es ih => simp [run_sink, run, ih]

/-- The sink verdicts never influence which notifications are attempted. -/
theorem run_sink_snd_fst (cfg : Config) (sink : String → Bool)
    (b : List (String × String)) (es : List Event) :
    (run_sink cfg sink b es).2.map Prod.fst = (run cfg b es).2 := by
  induction es generalizing b with
  | nil => rfl
  | cons e es ih =>
      simp only [run_sink, run, List.map_append, List.map_map, ih]
      simp [Function.comp_def]

/-- C3: Compliance classification: `has_node_selector` returns `true` iff
the deployment has a spec, that spec's template has a pod spec, that pod
spec declares a node-selector mapping, and the mapping is non-empty; any
missing intermediate field yields `false` (the function is total, so no
error is possible). -/
theorem C3_compliance_classification (d : Deployment) :
    has_node_selector d = true ↔
      ∃ ds ps sel, d.spec = some ds ∧ ds.template.spec = some ps ∧
        ps.node_selector = some sel ∧ sel ≠ [] := by
  rcases d with ⟨meta, spec⟩
  rcases spec with _ | ⟨⟨tspec⟩⟩
  · simp [has_node_selector]
  · rcases tspec with _ | ⟨pspec⟩
    · simp [has_node_selector]
    · rcases pspec with ⟨sel⟩
      rcases sel with _ | sel
      · simp [has_node_selector]
      · simp [has_node_selector, List.isEmpty_iff]

/-- C1: Phase isolation: for the sequence Init, InitApply A, InitDone,
Apply B with A and B non-compliant and not excluded, the loop posts
exactly one batch notification listing only A, followed by exactly one
single-item notification for B; the Apply event adds nothing to the batch
(the final batch is empty) and the priming item triggers no individual
notification. -/
theorem C1_phase_isolation (cfg : Config) (A B : Deployment)
    (hA1 : should_ignore_namespace (deployment_namespace A)
      cfg.ignored_namespaces = false)
    (hA2 : has_node_selector A = false)
    (hB1 : should_ignore_namespace (deployment_namespace B)
      cfg.ignored_namespaces = false)
    (hB2 : has_node_selector B = false) :
    run cfg [] [Event.Init, Event.InitApply A, Event.InitDone, Event.Apply B] =
      ([], [Sent.batch (batch_message cfg.env_name
              [(deployment_namespace A, deployment_name A)]),
            Sent.single (single_message cfg.env_name (deployment_name B))]) := by
  simp [run, step, hA1, hA2, hB1, hB2, send_slack_notification,
    send_slack_batch_notification]

/-- Witness for C1 at a concrete configuration and concrete deployments. -/
theorem C1_phase_isolation_witness :
    run cfg0 [] [Event.Init, Event.InitApply depA, Event.InitDone,
        Event.Apply depB] =
      ([], [Sent.batch (batch_message cfg0.env_name
              [(deployment_namespace depA, deployment_name depA)]),
            Sent.single (single_message cfg0.env_name (deployment_name depB))]) :=
  C1_phase_isolation cfg0 depA depB rfl rfl rfl rfl

/-- C2: Batch correctness: a full priming sequence posts, at InitDone,
exactly one batch notification whose entries are exactly the non-excluded
non-compliant items in observation order, and no batch notification when
there are none; the message text carries the environment label, the total
violation count and the newline-separated namespace/name entries. -/
theorem C2_batch_correctness (cfg : Config) (ds : List Deployment) :
    run cfg [] (priming_events ds) =
      ([], if (violating_refs cfg ds).isEmpty then []
           else [Sent.batch (batch_message cfg.env_name
                   (violating_refs cfg ds))]) ∧
    batch_message cfg.env_name (violating_refs cfg ds) =
      "⚠️ Found " ++ toString (violating_refs cfg ds).length ++
        " deployment(s) missing nodeSelector\nenv: " ++ cfg.env_name ++ "\n" ++
        String.intercalate "\n"
          ((violating_refs cfg ds).map fun p => "• " ++ p.1 ++ "/" ++ p.2) := by
  refine ⟨?_, rfl⟩
  simp only [priming_events, run]
  rw [run_append, run_initapply]
  simp [run, step, send_slack_batch_notification]

/-- C4: PrimingComplete handling: on InitDone exactly one batch delivery
is attempted when the batch is non-empty and none when it is empty, and
the batch is cleared afterwards whatever verdict the sink returns for the
attempt. -/
theorem C4_initdone_handling (cfg : Config) (sink : String → Bool)
    (batch : List (String × String)) :
    run_sink cfg sink batch [Event.InitDone] =
      ([], if batch.isEmpty then []
           else [(Sent.batch (batch_message cfg.env_name batch),
                  sink (batch_message cfg.env_name batch))]) := by
  rcases h : batch.isEmpty with _ | _ <;>
    simp [run_sink, step, send_slack_batch_notification, sent_text, h]

/-- C5 corrected, counterexample: the restart-of-priming sequence posts no
notification at all — in particular no batch notification with an empty
entry list — because the empty batch makes InitDone skip delivery. -/
theorem C5_restart_counterexample :
    (run cfg0 [] [Event.Init, Event.InitApply depA, Event.Init,
        Event.InitDone]).2 = [] ∧
    (run cfg0 [] [Event.Init, Event.InitApply depA, Event.Init,
        Event.InitDone]).2 ≠ [Sent.batch (batch_message "prod" [])] := by
  constructor
  · rfl
  · decide

/-- C5 amended: the restart-of-priming sequence Init, InitApply A, Init,
InitDone ends with an empty batch and posts no notification: the second
Init clears A from the batch and delivery is skipped for the empty
batch. -/
theorem C5_restart_of_priming (cfg : Config) (A : Deployment) :
    run cfg [] [Event.Init, Event.InitApply A, Event.Init, Event.InitDone] =
      ([], []) := by
  simp [run, step_initapply_snd, step, send_slack_batch_notification]
  split
  · rfl
  · split <;> rfl

/-- C6: Namespace exclusion: an event for a workload whose namespace is in
the ignored set changes no state and posts nothing, in both phases and
regardless of compliance; and membership in the parsed ignored set is
exact string membership among the trimmed, non-empty comma-separated
configuration entries. -/
theorem C6_namespace_exclusion (cfg : Config) (batch : List (String × String))
    (d : Deployment) (raw n : String)
    (h : should_ignore_namespace (deployment_namespace d)
      cfg.ignored_namespaces = true) :
    step cfg batch (Event.Apply d) = (batch, []) ∧
    step cfg batch (Event.InitApply d) = (batch, []) ∧
    (should_ignore_namespace n (parse_ignored_namespaces raw) = true ↔
      n ∈ (raw.splitOn ",").map String.trim ∧ n ≠ "") := by
  refine ⟨by simp [step, h], by simp [step, h], ?_⟩
  simp only [should_ignore_namespace, parse_ignored_namespaces]
  simp [List.mem_filter, Bool.eq_false_iff, not_congr (String.isEmpty_iff _)]

/-- Witness for C6 at a concrete configuration, a concrete deployment in
the ignored namespace, and a concrete raw configuration string. -/
theorem C6_namespace_exclusion_witness :
    step cfg1 [] (Event.Apply depC) = ([], []) ∧
    step cfg1 [] (Event.InitApply depC) = ([], []) ∧
    (should_ignore_namespace "kube-system"
        (parse_ignored_namespaces " kube-system , ,dev ") = true ↔
      "kube-system" ∈ (" kube-system , ,dev ".splitOn ",").map String.trim ∧
        "kube-system" ≠ "") :=
  C6_namespace_exclusion cfg1 [] depC " kube-system , ,dev " "kube-system" rfl

/-- C7: Delivery-failure isolation: the batch state and the sequence of
attempted notifications are identical under any two sinks (a failed
delivery is only logged: no halt, no retry, no re-queue), after any event
the remaining events are still processed and their attempts appended, and
each iteration attempts at most one delivery. -/
theorem C7_delivery_failure_isolation (cfg : Config) (f g : String → Bool)
    (batch : List (String × String)) (e : Event) (es : List Event) :
    (run_sink cfg f batch (e :: es)).1 = (run_sink cfg g batch (e :: es)).1 ∧
    (run_sink cfg f batch (e :: es)).2.map Prod.fst =
      (run_sink cfg g batch (e :: es)).2.map Prod.fst ∧
    (run_sink cfg f batch (e :: es)).2.map Prod.fst =
      (step cfg batch e).2 ++
        (run_sink cfg f (step cfg batch e).1 es).2.map Prod.fst ∧
    (step cfg batch e).2.length ≤ 1 := by
  refine ⟨by rw [run_sink_fst, run_sink_fst],
    by rw [run_sink_snd_fst, run_sink_snd_fst], ?_,
    step_snd_length cfg batch e⟩
  rw [run_sink_snd_fst, run_sink_snd_fst]
  simp [run]

/-- C8 corrected, counterexample: the same non-compliant workload primed
twice is pushed into the batch twice and the batch notification lists it
twice — the loop does not deduplicate. -/
theorem C8_dedup_counterexample :
    (run cfg0 [] [Event.Init, Event.InitApply depA, Event.InitApply depA]).1 =
      [("team-a", "api"), ("team-a", "api")] ∧
    (run cfg0 [] [Event.Init, Event.InitApply depA, Event.InitApply depA,
        Event.InitDone]).2 =
      [Sent.batch (batch_message "prod"
         [("team-a", "api"), ("team-a", "api")])] :=
  ⟨rfl, rfl⟩

/-- C8 amended: the loop performs no deduplication: a non-compliant,
non-excluded workload delivered n times as a priming item appears n times
in the accumulated batch. -/
theorem C8_no_dedup (cfg : Config) (d : Deployment) (n : Nat)
    (h1 : should_ignore_namespace (deployment_namespace d)
      cfg.ignored_namespaces = false)
    (h2 : has_node_selector d = false) :
    (run cfg [] (Event.Init :: List.replicate n (Event.InitApply d))).1 =
      List.replicate n (deployment_namespace d, deployment_name d) := by
  have hmap : List.replicate n (Event.InitApply d) =
      (List.replicate n d).map Event.InitApply := by simp
  have hfil : (List.replicate n d).filter (fun x =>
      !should_ignore_namespace (deployment_namespace x) cfg.ignored_namespaces &&
        !has_node_selector x) = List.replicate n d := by
    rw [List.filter_eq_self]
    intro a ha
    rw [List.eq_of_mem_replicate ha]
    simp [h1, h2]
  simp only [run, hmap]
  rw [run_initapply]
  simp [step, violating_refs, hfil, List.map_replicate]

/-- Witness for C8's amended statement at a concrete deployment primed
twice. -/
theorem C8_no_dedup_witness :
    (run cfg0 [] (Event.Init :: List.replicate 2 (Event.InitApply depA))).1 =
      List.replicate 2 (deployment_namespace depA, deployment_name depA) :=
  C8_no_dedup cfg0 depA 2 rfl rfl

/-- C9 corrected, counterexample: a streaming-phase event for a workload
with neither name nor namespace posts the single-item notification whose
text names the workload only as unknown; the text does not contain
default/unknown, so the claim's streaming half fails. -/
theorem C9_defaulting_counterexample :
    (run cfg0 [] [Event.Apply depNone]).2 =
      [Sent.single (single_message "prod" "unknown")] ∧
    contains_sub (single_message "prod" "unknown") "default/unknown" = false := by
  constructor
  · rfl
  · decide

/-- C9 amended: a workload with neither name nor namespace defaults to
namespace default and name unknown and raises no error: as a priming item
it is recorded in the batch as the pair (default, unknown) — rendered
default/unknown in the digest — while in the streaming phase the single
notification reports only the name, unknown (single notifications never
carry a namespace). -/
theorem C9_missing_field_defaulting (cfg : Config)
    (batch : List (String × String)) (spec : Option DeploymentSpec)
    (h1 : should_ignore_namespace "default" cfg.ignored_namespaces = false)
    (h2 : has_node_selector ⟨⟨none, none⟩, spec⟩ = false) :
    step cfg batch (Event.InitApply ⟨⟨none, none⟩, spec⟩) =
      (batch ++ [("default", "unknown")], []) ∧
    step cfg batch (Event.Apply ⟨⟨none, none⟩, spec⟩) =
      (batch, [Sent.single (single_message cfg.env_name "unknown")]) := by
  constructor <;>
    simp [step, deployment_namespace, deployment_name, h1, h2,
      send_slack_notification]

/-- Witness for C9's amended statement at a concrete configuration. -/
theorem C9_missing_field_defaulting_witness :
    step cfg0 [] (Event.InitApply ⟨⟨none, none⟩, none⟩) =
      ([] ++ [("default", "unknown")], []) ∧
    step cfg0 [] (Event.Apply ⟨⟨none, none⟩, none⟩) =
      ([], [Sent.single (single_message cfg0.env_name "unknown")]) :=
  C9_missing_field_defaulting cfg0 [] none rfl rfl

/-- C10: the single-violation notification depends only on the environment
label and the workload name: two non-compliant, non-excluded streaming
events whose workloads share a name produce identical notification output,
whatever their namespaces and node-selector data. -/
theorem C10_notification_namespace_independent (cfg : Config)
    (batch : List (String × String)) (d1 d2 : Deployment)
    (hname : deployment_name d1 = deployment_name d2)
    (h1 : should_ignore_namespace (deployment_namespace d1)
      cfg.ignored_namespaces = false)
    (h2 : should_ignore_namespace (deployment_namespace d2)
      cfg.ignored_namespaces = false)
    (hc1 : has_node_selector d1 = false)
    (hc2 : has_node_selector d2 = false) :
    (step cfg batch (Event.Apply d1)).2 =
      [Sent.single (single_message cfg.env_name (deployment_name d1))] ∧
    (step cfg batch (Event.Apply d1)).2 = (step cfg batch (Event.Apply d2)).2 := by
  constructor <;>
    simp [step, h1, h2, hc1, hc2, send_slack_notification, hname]

/-- Witness for C10: two concrete deployments both named web, in
namespaces team-a and team-b, produce identical single notifications. -/
theorem C10_notification_namespace_independent_witness :
    (step cfg0 [] (Event.Apply depB2)).2 =
      [Sent.single (single_message cfg0.env_name (deployment_name depB2))] ∧
    (step cfg0 [] (Event.Apply depB2)).2 = (step cfg0 [] (Event.Apply depB)).2 :=
  C10_notification_namespace_independent cfg0 [] depB2 depB rfl rfl rfl rfl rfl

end NodeSelectorNotify
